import Mathlib

/-!
Shallow embedding of the `kamjsonrpc` Go package (file `kamjsonrpc.go`):
a Kamailio JSON-RPC-over-HTTP client.  The embedding models the client
state (url, TLS flag, uint64 request-identifier counter), the request and
response envelopes, and the generic `Call` method, with the external
collaborators (json.Marshal, http.Client.Post, ioutil.ReadAll,
json.Unmarshal) represented by an `Exchange` oracle describing which step
fails or which decoded response envelope comes back.

Go conventions mirrored here:
- `error` values are their `Error()` strings; `errors.New(s)` is `s` and
  `fmt.Errorf` is modelled by the concrete formatted string.
- A `*T` pointer field of the decoded envelope is `Option`: `none` is a
  nil pointer.  `json.Unmarshal` stores JSON `null` (or an absent field)
  into a `*json.RawMessage` / `*KamError` field as a nil pointer.
- The `uint64` counter lives as a `Nat` reduced modulo `2 ^ 64` at the
  increment, the one place overflow matters.
- Dereferencing a nil pointer (line `*reply = *kamResponse.Result`) is a
  runtime panic, modelled by the distinguished outcome `nilPanic`.
-/

namespace Kamjsonrpc

/-- `const OK = "OK"` (kamjsonrpc.go line 22). -/
def OK : String := "OK"

/-- Modulus of Go's `uint64`, the type of the request-identifier counter. -/
def UINT64_MOD : Nat := 2 ^ 64

/-- A Go `interface{}` argument value as far as `Call` inspects it: the
type switch `args.([]string)` distinguishes a `[]string` from every other
value, which stays opaque. -/
inductive GoValue where
  | stringSlice (elems : List String)
  | str (s : String)
  | int (n : Int)
  | boolean (b : Bool)
  | null
deriving DecidableEq, Repr

/-- `KamJsonRpcRequest` (lines 25-30): the serialized request envelope. -/
structure KamJsonRpcRequest where
  jsonrpc : String
  method : String
  params : List GoValue
  id : Nat
deriving DecidableEq, Repr

/-- `KamError` (lines 33-36): the protocol-level error object. -/
structure KamError where
  code : Int
  message : String
deriving DecidableEq, Repr

/-- `KamJsonRpcResponse` (lines 38-43): the decoded response envelope.
`result` and `error` are pointer fields; `none` is a nil pointer, which
is what `json.Unmarshal` leaves for an absent or `null` field. -/
structure KamJsonRpcResponse where
  jsonrpc : String
  id : Nat
  result : Option String
  error : Option KamError
deriving DecidableEq, Repr

/-- `KamailioJsonRpc` (lines 51-56): the client.  The `http.Client`
handle is summarized by the TLS flag it was built from; the mutex
guards `id` and is implicit in the sequential state passing. -/
structure KamailioJsonRpc where
  url : String
  skipTlsVerify : Bool
  id : Nat
deriving DecidableEq, Repr

/-- `NewKamailioJsonRpc` (lines 45-49): constructs a client whose `id`
counter is the Go zero value `0`. -/
def NewKamailioJsonRpc (url : String) (skipTlsVerify : Bool) : KamailioJsonRpc :=
  { url := url, skipTlsVerify := skipTlsVerify, id := 0 }

/-- Oracle for one HTTP exchange as `Call` observes it: which fallible
external step fails (with the Go error string), or the HTTP status code
together with the envelope that `json.Unmarshal` decoded from the body. -/
inductive Exchange where
  | marshalErr (e : String)
  | postErr (e : String)
  | readErr (e : String)
  | unmarshalErr (e : String)
  | response (statusCode : Nat) (env : KamJsonRpcResponse)
deriving DecidableEq, Repr

/-- Outcome of `Call`: a nil error with `*reply` set to the raw result,
a non-nil error (its string), or the nil-pointer-dereference panic at
`*reply = *kamResponse.Result` when `Result` is nil. -/
inductive CallOutcome where
  | ok (raw : String)
  | err (e : String)
  | nilPanic
deriving DecidableEq, Repr

/-- `fmt.Errorf("Unexpected status code received: %d", resp.StatusCode)`
(line 94). -/
def unexpectedStatusMsg (code : Nat) : String :=
  "Unexpected status code received: " ++ toString code

/-- `fmt.Errorf("Unsynchronized request, had: %d, received: %d", reqId,
kamResponse.Id)` (line 97). -/
def unsyncMsg (sent received : Nat) : String :=
  "Unsynchronized request, had: " ++ toString sent ++ ", received: " ++ toString received

/-- Lines 65-72: `req.Params` is the flattened `[]string` when the type
assertion succeeds, otherwise the one-element slice holding `args`. -/
def normalizeParams (args : GoValue) : List GoValue :=
  match args with
  | .stringSlice elems => elems.map GoValue.str
  | v => [v]

/-- Everything one invocation of `Call` produces: the request envelope it
built, the returned outcome, the client state after the counter
increment, and what (if anything) was assigned to `*reply`. -/
structure CallResult where
  request : KamJsonRpcRequest
  outcome : CallOutcome
  client : KamailioJsonRpc
  replyWrite : Option String
deriving DecidableEq, Repr

/-- `Call` (lines 59-101).  The counter is read and incremented first
(lines 60-63); the request envelope is built (lines 64-72); each fallible
external step returns its error unchanged (lines 73-89); then the checks:
error object (line 90), status `> 299` (line 93), identifier mismatch
(line 96); finally `*reply = *kamResponse.Result` (line 99), a nil
dereference when `Result` is nil. -/
def Call (self : KamailioJsonRpc) (serviceMethod : String) (args : GoValue)
    (exch : Exchange) : CallResult :=
  let reqId := self.id
  let self' : KamailioJsonRpc := { self with id := (self.id + 1) % UINT64_MOD }
  let req : KamJsonRpcRequest :=
    { jsonrpc := "2.0", method := serviceMethod, params := normalizeParams args, id := reqId }
  match exch with
  | .marshalErr e => ⟨req, .err e, self', none⟩
  | .postErr e => ⟨req, .err e, self', none⟩
  | .readErr e => ⟨req, .err e, self', none⟩
  | .unmarshalErr e => ⟨req, .err e, self', none⟩
  | .response statusCode kamResponse =>
    match kamResponse.error with
    | some kamErr => ⟨req, .err kamErr.message, self', none⟩
    | none =>
      if 299 < statusCode then
        ⟨req, .err (unexpectedStatusMsg statusCode), self', none⟩
      else if kamResponse.id ≠ reqId then
        ⟨req, .err (unsyncMsg reqId kamResponse.id), self', none⟩
      else
        match kamResponse.result with
        | some raw => ⟨req, .ok raw, self', some raw⟩
        | none => ⟨req, .nilPanic, self', none⟩

/-- A sequence of `Call` invocations against one client, each with its
method, argument and exchange oracle; returns the request identifiers
used, in order, and the final client state. -/
def callSeq (calls : List (String × GoValue × Exchange)) (self : KamailioJsonRpc) :
    List Nat × KamailioJsonRpc :=
  match calls with
  | [] => ([], self)
  | (m, a, e) :: rest =>
    let r := Call self m a e
    let p := callSeq rest r.client
    (r.request.id :: p.1, p.2)

/-- Outcome of a wrapper whose reply target is a `*string`. -/
inductive StringReplyOutcome where
  | ok (reply : String)
  | err (e : String)
  | nilPanic
deriving DecidableEq, Repr

/-- `UacRegEnable` (lines 113-120): calls `uac.reg_enable`, propagates a
`Call` error unchanged, otherwise sets `*reply = OK`.  A panic inside
`Call` propagates as a panic. -/
def UacRegEnable (self : KamailioJsonRpc) (params : List String) (exch : Exchange) :
    StringReplyOutcome × KamailioJsonRpc :=
  let r := Call self "uac.reg_enable" (.stringSlice params) exch
  match r.outcome with
  | .err e => (.err e, r.client)
  | .nilPanic => (.nilPanic, r.client)
  | .ok _ => (.ok OK, r.client)

/-- The request envelope `Call` posts: protocol tag `"2.0"`, the given
method, the normalized params, and the pre-increment counter value. -/
theorem Call_request (self : KamailioJsonRpc) (m : String) (a : GoValue)
    (exch : Exchange) :
    (Call self m a exch).request =
      { jsonrpc := "2.0", method := m, params := normalizeParams a, id := self.id } := by
  cases exch with
  | response statusCode env =>
    cases henv : env.error with
    | some kamErr => simp [Call, henv]
    | none =>
      by_cases hst : 299 < statusCode
      · simp [Call, henv, hst]
      · by_cases hid : env.id = self.id
        · cases hres : env.result <;> simp [Call, henv, hst, hid, hres]
        · simp [Call, henv, hst, hid]
  | _ => rfl

/-- `Call` always advances the counter by one (mod `2 ^ 64`), whatever
the outcome: the increment happens before any fallible step. -/
theorem Call_client (self : KamailioJsonRpc) (m : String) (a : GoValue)
    (exch : Exchange) :
    (Call self m a exch).client = { self with id := (self.id + 1) % UINT64_MOD } := by
  cases exch with
  | response statusCode env =>
    cases henv : env.error with
    | some kamErr => simp [Call, henv]
    | none =>
      by_cases hst : 299 < statusCode
      · simp [Call, henv, hst]
      · by_cases hid : env.id = self.id
        · cases hres : env.result <;> simp [Call, henv, hst, hid, hres]
        · simp [Call, henv, hst, hid]
  | _ => rfl

/-- C1: `Call` checks failure conditions in a fixed precedence order: a
populated error object is reported first as the protocol error, whatever
the status and identifiers; the status check fires only with no error
object present and status above 299; the identifier-mismatch check fires
only with no error object and an acceptable status. -/
theorem c1_error_precedence (self : KamailioJsonRpc) (m : String) (a : GoValue)
    (status : Nat) (env : KamJsonRpcResponse) :
    (∀ kamErr, env.error = some kamErr →
      (Call self m a (.response status env)).outcome = .err kamErr.message)
    ∧ (env.error = none → 299 < status →
      (Call self m a (.response status env)).outcome = .err (unexpectedStatusMsg status))
    ∧ (env.error = none → status ≤ 299 → env.id ≠ self.id →
      (Call self m a (.response status env)).outcome = .err (unsyncMsg self.id env.id)) := by
  refine ⟨fun kamErr herr => by simp [Call, herr], fun herr hst => by simp [Call, herr, hst],
    fun herr hst hid => ?_⟩
  simp [Call, herr, Nat.not_lt.mpr hst, hid]

/-- C1 witness: the three precedence branches at concrete responses: an
error object beats a 500 status and a mismatched identifier; a 500 status
with no error object; a mismatched identifier with status 200. -/
theorem c1_error_precedence_witness :
    (Call (NewKamailioJsonRpc "http://k" false) "core.echo" (.str "x")
      (.response 500 ⟨"2.0", 7, some "5", some ⟨-32000, "Execution Error"⟩⟩)).outcome
        = .err "Execution Error"
    ∧ (Call (NewKamailioJsonRpc "http://k" false) "core.echo" (.str "x")
      (.response 500 ⟨"2.0", 0, some "5", none⟩)).outcome = .err (unexpectedStatusMsg 500)
    ∧ (Call (NewKamailioJsonRpc "http://k" false) "core.echo" (.str "x")
      (.response 200 ⟨"2.0", 7, some "5", none⟩)).outcome = .err (unsyncMsg 0 7) :=
  ⟨(c1_error_precedence _ _ _ _ _).1 _ rfl,
   (c1_error_precedence _ _ _ _ _).2.1 rfl (by decide),
   (c1_error_precedence _ _ _ _ _).2.2 rfl (by decide) (by decide)⟩

/-- C3 counterexample: a response whose echoed identifier (7) differs
from the sent identifier (0) but which carries an error object yields the
protocol error, not the unsynchronized-response error — refuting "always
yields an unsynchronized-response error". -/
theorem c3_counterexample :
    (Call (NewKamailioJsonRpc "http://k" false) "core.echo" (.str "x")
      (.response 200 ⟨"2.0", 7, some "5", some ⟨-32000, "Execution Error"⟩⟩)).outcome
        = .err "Execution Error"
    ∧ CallOutcome.err "Execution Error" ≠ .err (unsyncMsg 0 7) := by
  exact ⟨rfl, by decide⟩

/-- C3 amended: a response whose echoed identifier differs from the sent
identifier never yields a decoded result (and never writes the reply);
it yields the unsynchronized-response error naming the sent and received
identifiers provided no error object is present and the status is at
most 299 (otherwise those earlier checks fail the call first). -/
theorem c3_amended_unsync (self : KamailioJsonRpc) (m : String) (a : GoValue)
    (status : Nat) (env : KamJsonRpcResponse) (hid : env.id ≠ self.id) :
    (env.error = none → status ≤ 299 →
      (Call self m a (.response status env)).outcome = .err (unsyncMsg self.id env.id))
    ∧ (∀ raw, (Call self m a (.response status env)).outcome ≠ .ok raw)
    ∧ (Call self m a (.response status env)).replyWrite = none := by
  refine ⟨fun herr hst => by simp [Call, herr, Nat.not_lt.mpr hst, hid], ?_, ?_⟩ <;>
  · cases henv : env.error with
    | some kamErr => simp [Call, henv]
    | none =>
      by_cases hst : 299 < status
      · simp [Call, henv, hst]
      · simp [Call, henv, hst, hid]

/-- C3 witness: with sent identifier 0 and echoed identifier 7 at status
200 with no error object, the outcome is the unsynchronized error, not a
result, and the reply is untouched. -/
theorem c3_amended_unsync_witness :
    ((Call (NewKamailioJsonRpc "http://k" false) "core.echo" (.str "x")
      (.response 200 ⟨"2.0", 7, some "5", none⟩)).outcome = .err (unsyncMsg 0 7))
    ∧ (∀ raw, (Call (NewKamailioJsonRpc "http://k" false) "core.echo" (.str "x")
      (.response 200 ⟨"2.0", 7, some "5", none⟩)).outcome ≠ .ok raw)
    ∧ (Call (NewKamailioJsonRpc "http://k" false) "core.echo" (.str "x")
      (.response 200 ⟨"2.0", 7, some "5", none⟩)).replyWrite = none :=
  ⟨(c3_amended_unsync _ _ _ _ _ (by decide)).1 rfl (by decide),
   (c3_amended_unsync _ _ _ _ _ (by decide)).2.1,
   (c3_amended_unsync _ _ _ _ _ (by decide)).2.2⟩

/-- C4: a response with HTTP status 200, matching echoed identifier, no
error object and a populated result yields success, returning the raw
result payload unchanged — the very value decoded from the body's result
field — and writes exactly that value to the reply. -/
theorem c4_success_passthrough (self : KamailioJsonRpc) (m : String) (a : GoValue)
    (env : KamJsonRpcResponse) (raw : String) (hid : env.id = self.id)
    (herr : env.error = none) (hres : env.result = some raw) :
    (Call self m a (.response 200 env)).outcome = .ok raw
    ∧ (Call self m a (.response 200 env)).replyWrite = some raw := by
  constructor <;> simp [Call, herr, hid, hres]

/-- C4 witness: status 200, matching identifier 0, result payload
`[5, 6]` passes through byte-for-byte. -/
theorem c4_success_passthrough_witness :
    (Call (NewKamailioJsonRpc "http://k" false) "core.echo" (.str "x")
      (.response 200 ⟨"2.0", 0, some "[5, 6]", none⟩)).outcome = .ok "[5, 6]"
    ∧ (Call (NewKamailioJsonRpc "http://k" false) "core.echo" (.str "x")
      (.response 200 ⟨"2.0", 0, some "[5, 6]", none⟩)).replyWrite = some "[5, 6]" :=
  c4_success_passthrough _ _ _ _ _ (by decide) rfl rfl

/-- C5: the params of the posted request envelope: a `[]string` argument
is flattened, each string its own positional parameter in order; any
other argument value becomes the sole element of a one-element params
array. -/
theorem c5_params_normalization (self : KamailioJsonRpc) (m : String)
    (a : GoValue) (exch : Exchange) :
    (∀ elems, a = .stringSlice elems →
      (Call self m a exch).request.params = elems.map GoValue.str)
    ∧ ((∀ elems, a ≠ .stringSlice elems) →
      (Call self m a exch).request.params = [a]) := by
  constructor
  · rintro elems rfl
    rw [Call_request]
    rfl
  · intro hns
    rw [Call_request]
    cases a with
    | stringSlice elems => exact absurd rfl (hns elems)
    | _ => rfl

/-- C5 witness: `["a", "b"]` serializes as params `["a", "b"]`, while the
single non-list argument `7` serializes as params `[7]`. -/
theorem c5_params_normalization_witness :
    (Call (NewKamailioJsonRpc "http://k" false) "core.echo"
      (.stringSlice ["a", "b"]) (.postErr "down")).request.params
        = [GoValue.str "a", GoValue.str "b"]
    ∧ (Call (NewKamailioJsonRpc "http://k" false) "core.echo"
      (.int 7) (.postErr "down")).request.params = [GoValue.int 7] :=
  ⟨(c5_params_normalization _ _ _ _).1 ["a", "b"] rfl,
   (c5_params_normalization _ _ _ _).2 (fun elems h => by cases h)⟩

/-- C6 counterexample: two responses whose error objects differ only in
the numeric code (-32000 vs -32001) produce identical `Call` results —
`errors.New(kamResponse.Error.Message)` keeps only the message — so the
returned error cannot carry the server's numeric code. -/
theorem c6_counterexample :
    Call (NewKamailioJsonRpc "http://k" false) "core.echo" (.str "x")
      (.response 200 ⟨"2.0", 0, none, some ⟨-32000, "Execution Error"⟩⟩)
      = Call (NewKamailioJsonRpc "http://k" false) "core.echo" (.str "x")
        (.response 200 ⟨"2.0", 0, none, some ⟨-32001, "Execution Error"⟩⟩)
    ∧ (-32000 : Int) ≠ -32001 :=
  ⟨rfl, by decide⟩

/-- C6 amended: whenever the response envelope carries a populated error
object, `Call` fails with a protocol error carrying the server's
human-readable message verbatim; the numeric code is discarded. -/
theorem c6_amended_protocol_error (self : KamailioJsonRpc) (m : String)
    (a : GoValue) (status : Nat) (env : KamJsonRpcResponse) (kamErr : KamError)
    (herr : env.error = some kamErr) :
    (Call self m a (.response status env)).outcome = .err kamErr.message := by
  simp [Call, herr]

/-- C6 witness: a populated error object with message "Execution Error"
yields exactly that error string. -/
theorem c6_amended_protocol_error_witness :
    (Call (NewKamailioJsonRpc "http://k" false) "core.echo" (.str "x")
      (.response 200 ⟨"2.0", 0, none, some ⟨-32000, "Execution Error"⟩⟩)).outcome
        = .err "Execution Error" :=
  c6_amended_protocol_error _ _ _ _ _ ⟨-32000, "Execution Error"⟩ rfl

/-- C7 counterexample: HTTP status 100 lies outside the range 200-299,
yet with no error object, a matching identifier and a populated result
the call succeeds — the code only rejects statuses greater than 299. -/
theorem c7_counterexample :
    (Call (NewKamailioJsonRpc "http://k" false) "core.echo" (.str "x")
      (.response 100 ⟨"2.0", 0, some "5", none⟩)).outcome = .ok "5"
    ∧ ¬ (200 ≤ 100 ∧ 100 ≤ 299) :=
  ⟨rfl, by decide⟩

/-- C7 amended: for every response whose envelope carries no error object
and whose HTTP status code is greater than 299, `Call` fails with the
unexpected-status error carrying that status code. -/
theorem c7_amended_status (self : KamailioJsonRpc) (m : String) (a : GoValue)
    (status : Nat) (env : KamJsonRpcResponse) (herr : env.error = none)
    (hst : 299 < status) :
    (Call self m a (.response status env)).outcome = .err (unexpectedStatusMsg status) := by
  simp [Call, herr, hst]

/-- C7 witness: status 500 with no error object yields the
unexpected-status error naming 500. -/
theorem c7_amended_status_witness :
    (Call (NewKamailioJsonRpc "http://k" false) "core.echo" (.str "x")
      (.response 500 ⟨"2.0", 0, some "5", none⟩)).outcome = .err (unexpectedStatusMsg 500) :=
  c7_amended_status _ _ _ _ _ rfl (by decide)

/-- C8: `UacRegEnable` against a server answering status 200, matching
identifier, body with `"result":null` (which `json.Unmarshal` stores as
a nil `*json.RawMessage`, here `none`) does not return the marker "OK":
`Call` panics dereferencing the nil result pointer at line 99, so the
wrapper never reaches `*reply = OK`. -/
theorem c8_null_result_panics :
    (UacRegEnable (NewKamailioJsonRpc "http://k" false) ["l_uuid"]
      (.response 200 ⟨"2.0", 0, none, none⟩)).1 = .nilPanic := rfl

/-- C9: a well-formed envelope with matching identifier, status 200 and
neither error nor result populated drives `Call` into the nil-pointer
dereference at `*reply = *kamResponse.Result` — a panic, not a returned
value or error, refuting "the extraction never dereferences an absent
result". -/
theorem c9_absent_result_panics :
    (Call (NewKamailioJsonRpc "http://k" false) "core.echo" (.str "x")
      (.response 200 ⟨"2.0", 0, none, none⟩)).outcome = .nilPanic := rfl

/-- C10: the reply location is written exactly when `Call` succeeds, and
then holds the returned raw result; on every error return (serialization,
HTTP exchange, body read, envelope decode, error object, unexpected
status, identifier mismatch) and on the nil-result panic the reply is
left untouched. -/
theorem c10_reply_frame (self : KamailioJsonRpc) (m : String) (a : GoValue)
    (exch : Exchange) :
    (Call self m a exch).replyWrite =
      match (Call self m a exch).outcome with
      | .ok raw => some raw
      | .err _ => none
      | .nilPanic => none := by
  cases exch with
  | response statusCode env =>
    cases henv : env.error with
    | some kamErr => simp [Call, henv]
    | none =>
      by_cases hst : 299 < statusCode
      · simp [Call, henv, hst]
      · by_cases hid : env.id = self.id
        · cases hres : env.result <;> simp [Call, henv, hst, hid, hres]
        · simp [Call, henv, hst, hid]
  | _ => rfl

/-- One step of `callSeq`: the head call uses the current counter value
and the tail runs against the incremented client. -/
theorem callSeq_cons (m : String) (a : GoValue) (e : Exchange)
    (rest : List (String × GoValue × Exchange)) (self : KamailioJsonRpc) :
    (callSeq ((m, a, e) :: rest) self).1
      = self.id :: (callSeq rest { self with id := (self.id + 1) % UINT64_MOD }).1 := by
  simp [callSeq, Call_request, Call_client]

/-- The identifiers of a run of `callSeq` from any in-range counter value
`self.id` are `self.id, self.id + 1, ...` reduced modulo `2 ^ 64`. -/
theorem callSeq_ids (calls : List (String × GoValue × Exchange)) :
    ∀ self : KamailioJsonRpc, self.id < UINT64_MOD →
      (callSeq calls self).1
        = (List.range calls.length).map (fun k => (self.id + k) % UINT64_MOD) := by
  induction calls with
  | nil =>
    intro self _
    rfl
  | cons c rest ih =>
    intro self h
    obtain ⟨m, a, e⟩ := c
    have hlt : ((self.id + 1) % UINT64_MOD) < UINT64_MOD := Nat.mod_lt _ (by decide)
    have hrest := ih { self with id := (self.id + 1) % UINT64_MOD } hlt
    rw [callSeq_cons, hrest, List.length_cons, List.range_succ_eq_map, List.map_cons,
      List.map_map]
    have hfun : (fun k => ((self.id + 1) % UINT64_MOD + k) % UINT64_MOD)
        = ((fun k => (self.id + k) % UINT64_MOD) ∘ Nat.succ) := by
      funext k
      show ((self.id + 1) % UINT64_MOD + k) % UINT64_MOD
        = (self.id + Nat.succ k) % UINT64_MOD
      rw [Nat.mod_add_mod]
      congr 1
      omega
    rw [hfun]
    congr 1
    exact (Nat.mod_eq_of_lt (by simpa using h)).symm

/-- C2 amended: from a freshly constructed client (counter zero), every
sequence of at most `2 ^ 64` invocations of `Call` — succeeding or
failing, each consuming exactly one identifier — uses request
identifiers exactly `0, 1, ..., n-1` in increasing order with no
duplicate, gap or reuse; beyond `2 ^ 64` calls the `uint64` counter
wraps and identifiers repeat. -/
theorem c2_ids_range (url : String) (tls : Bool)
    (calls : List (String × GoValue × Exchange)) (h : calls.length ≤ UINT64_MOD) :
    (callSeq calls (NewKamailioJsonRpc url tls)).1 = List.range calls.length := by
  have h0 : (NewKamailioJsonRpc url tls).id < UINT64_MOD := by
    show (0 : Nat) < UINT64_MOD
    decide
  rw [callSeq_ids calls _ h0]
  have hpt : ∀ k ∈ List.range calls.length,
      ((NewKamailioJsonRpc url tls).id + k) % UINT64_MOD = id k := by
    intro k hk
    show (0 + k) % UINT64_MOD = k
    rw [Nat.zero_add, Nat.mod_eq_of_lt (lt_of_lt_of_le (List.mem_range.mp hk) h)]
  rw [List.map_congr_left hpt, List.map_id]

/-- C2 witness: three calls (a transport failure, a success, a
serialization failure) from a fresh client use identifiers `[0, 1, 2]`. -/
theorem c2_ids_range_witness :
    ([("core.echo", GoValue.stringSlice ["x"], Exchange.postErr "connection refused"),
      ("uac.reg_enable", GoValue.str "y",
        Exchange.response 200 ⟨"2.0", 1, some "5", none⟩),
      ("core.echo", GoValue.null, Exchange.marshalErr "bad")] :
        List (String × GoValue × Exchange)).length ≤ UINT64_MOD
    ∧ (callSeq
        [("core.echo", GoValue.stringSlice ["x"], Exchange.postErr "connection refused"),
         ("uac.reg_enable", GoValue.str "y",
           Exchange.response 200 ⟨"2.0", 1, some "5", none⟩),
         ("core.echo", GoValue.null, Exchange.marshalErr "bad")]
        (NewKamailioJsonRpc "http://k" false)).1 = List.range 3 :=
  ⟨by decide, c2_ids_range _ _ _ (by decide)⟩

/-- C2 counterexample: in a run of `2 ^ 64 + 1` calls from a fresh
client, call number 0 and call number `2 ^ 64` both use identifier 0 —
the `uint64` counter wraps around, so an identifier is duplicated and
reused within the client's lifetime, refuting the claim for every `n`. -/
theorem c2_counterexample :
    ((callSeq (List.replicate (UINT64_MOD + 1)
        ("core.echo", GoValue.str "x", Exchange.postErr "connection refused"))
      (NewKamailioJsonRpc "http://k" false)).1)[0]? = some 0
    ∧ ((callSeq (List.replicate (UINT64_MOD + 1)
        ("core.echo", GoValue.str "x", Exchange.postErr "connection refused"))
      (NewKamailioJsonRpc "http://k" false)).1)[UINT64_MOD]? = some 0
    ∧ (0 : Nat) ≠ UINT64_MOD := by
  have h0 : (NewKamailioJsonRpc "http://k" false).id < UINT64_MOD := by
    show (0 : Nat) < UINT64_MOD
    decide
  rw [callSeq_ids _ _ h0]
  refine ⟨?_, ?_, by decide⟩
  · rw [List.getElem?_map, List.length_replicate,
      List.getElem?_range (Nat.succ_pos UINT64_MOD)]
    show some ((0 + 0) % UINT64_MOD) = some 0
    rw [Nat.zero_add, Nat.zero_mod]
  · rw [List.getElem?_map, List.length_replicate,
      List.getElem?_range (Nat.lt_succ_self UINT64_MOD)]
    show some ((0 + UINT64_MOD) % UINT64_MOD) = some 0
    rw [Nat.zero_add, Nat.mod_self]

end Kamjsonrpc
